import Mathlib

/-!
Verification of the tariff-resolution engine of the `ai-tariff-agent`
repository, shallowly embedded in Lean 4.

The embedding follows `src/tariff_engine.py` and the hierarchical lookup of
`src/app.py`.  A tariff table is a list of rows; each row carries its
pre-normalized HTS code (the `HTS_Code_Clean` column, computed by `clean_hts`
at load time) and its duty field.  Python's `float(...)` parse of the duty
field is modelled by `Option ℚ`: `some d` when the field parses to the number
`d`, `none` when `float` raises `ValueError`/`TypeError`.  Rates are rational
numbers; the Python code computes with floats, whose rounding is not modelled.
-/

namespace TariffEngine

/-- One row of a tariff table: the `HTS_Code_Clean` column and the duty field
(`Section 301 Tariff %` or `Section 232 Duty`), already reduced to whether and
how it parses as a number. -/
structure Row where
  hts_code_clean : String
  duty : Option ℚ
deriving DecidableEq, Repr

/-- `clean_hts` of `tariff_engine.py`: keep exactly the digit characters of the
input, in order (`''.join(filter(str.isdigit, str(code)))`). -/
def clean_hts (code : String) : String :=
  String.mk (code.data.filter Char.isDigit)

/-- Python's `str.startswith`: `pre` is a prefix of the character sequence of
`s`. -/
def str_startswith (s pre : String) : Bool :=
  pre.data.isPrefixOf s.data

/-- Python's `str.lower`, character by character. -/
def str_lower (s : String) : String :=
  String.mk (s.data.map Char.toLower)

/-- `get_section_301_rate` of `tariff_engine.py`: 0 unless the country
lower-cases to `"china"`; otherwise truncate the cleaned code to 8 digits,
take the first row whose cleaned code starts with that prefix, and return its
parsed duty divided by 100; 0 on no match or parse failure. -/
def get_section_301_rate (hts_code country : String) (s301_df : List Row) : ℚ :=
  if str_lower country ≠ "china" then 0
  else
    let clean_code_8_digit := (clean_hts hts_code).take 8
    match s301_df.find? (fun r => str_startswith r.hts_code_clean clean_code_8_digit) with
    | some r =>
      match r.duty with
      | some duty_rate => duty_rate / 100
      | none => 0
    | none => 0

/-- One step of the Section 232 cascade at prefix length `L`: the first row
whose cleaned code equals the truncated query, if its duty parses; `none`
both on no match and on parse failure of the first matching row (the Python
`except ... continue`). -/
def s232_try_length (clean_code : String) (scenario_df : List Row) (L : Nat) : Option ℚ :=
  match scenario_df.find? (fun r => r.hts_code_clean == clean_code.take L) with
  | some r =>
    match r.duty with
    | some duty_rate => some (duty_rate / 100)
    | none => none
  | none => none

/-- `get_section_232_rate` of `tariff_engine.py`: hierarchical lookup at
lengths 10, 8, 6, 4, returning the first parsed duty divided by 100, else 0. -/
def get_section_232_rate (hts_code : String) (scenario_df : List Row) : ℚ :=
  (([10, 8, 6, 4] : List Nat).findSome? (s232_try_length (clean_hts hts_code) scenario_df)).getD 0

/-- `get_ieepa_rate` of `tariff_engine.py`. -/
def get_ieepa_rate (country scenario_name : String) : ℚ :=
  if str_lower country == "china" &&
      (scenario_name == "s232_pre_may_25" || scenario_name == "s232_post_may_25") then
    0.20
  else 0

/-- `get_reciprocal_rate` of `tariff_engine.py`. -/
def get_reciprocal_rate (country scenario_name : String) : ℚ :=
  let country_lower := str_lower country
  if scenario_name == "s232_2024" then 0
  else if scenario_name == "s232_pre_may_25" && country_lower == "china" then 1.25
  else if scenario_name == "s232_post_may_25" && country_lower == "china" then 0.10
  else 0

/-- One scenario entry of the result dictionary built by
`calculate_all_tariffs`: the five component rates plus the composite flag and
the keys that are present only in one branch, modelled as `Option ℚ`. -/
structure ScenarioResult where
  general : ℚ
  s301 : ℚ
  ieepa : ℚ
  s232 : ℚ
  reciprocal : ℚ
  is_composite : Bool
  metal_component : Option ℚ
  other_component : Option ℚ
  total_rate : Option ℚ
deriving DecidableEq, Repr

/-- The tables of `all_data` used by `calculate_all_tariffs`: the Section 301
table and the three scenario-specific Section 232 tables. -/
structure AllData where
  s301 : List Row
  s232_2024 : List Row
  s232_pre_may_25 : List Row
  s232_post_may_25 : List Row
deriving DecidableEq, Repr

/-- The body of the scenario loop of `calculate_all_tariffs`. -/
def compute_scenario (hts_code country : String) (general_rate : ℚ)
    (s301_df scenario_df : List Row) (scenario_key : String) : ScenarioResult :=
  let s301_rate := get_section_301_rate hts_code country s301_df
  let s232_rate := get_section_232_rate hts_code scenario_df
  let ieepa_rate := get_ieepa_rate country scenario_key
  let reciprocal_rate := get_reciprocal_rate country scenario_key
  if s232_rate > 0 then
    { general := general_rate, s301 := s301_rate, ieepa := ieepa_rate,
      s232 := s232_rate, reciprocal := reciprocal_rate, is_composite := true,
      metal_component := some (general_rate + s301_rate + ieepa_rate + s232_rate),
      other_component := some (general_rate + s301_rate + ieepa_rate + reciprocal_rate),
      total_rate := none }
  else
    { general := general_rate, s301 := s301_rate, ieepa := ieepa_rate,
      s232 := s232_rate, reciprocal := reciprocal_rate, is_composite := false,
      metal_component := none, other_component := none,
      total_rate := some (general_rate + s301_rate + ieepa_rate + s232_rate + reciprocal_rate) }

/-- `calculate_all_tariffs` of `tariff_engine.py`: the ordered mapping from
scenario display name to scenario result, for the three fixed scenarios. -/
def calculate_all_tariffs (hts_code country : String) (all_data : AllData)
    (general_rate : ℚ) : List (String × ScenarioResult) :=
  [ ("2024 Tariff",
      compute_scenario hts_code country general_rate all_data.s301 all_data.s232_2024 "s232_2024"),
    ("Pre-May 2025",
      compute_scenario hts_code country general_rate all_data.s301 all_data.s232_pre_may_25
        "s232_pre_may_25"),
    ("Post-May 2025",
      compute_scenario hts_code country general_rate all_data.s301 all_data.s232_post_may_25
        "s232_post_may_25") ]

/-- `get_hts_data_from_file` of `app.py`: hierarchical lookup at lengths
10, 8, 6, 4 in the general table, returning the first row whose cleaned code
equals the truncated query at the longest length that matches. -/
def get_hts_data_from_file (hts_code : String) (general_df : List Row) : Option Row :=
  ([10, 8, 6, 4] : List Nat).findSome? (fun L =>
    general_df.find? (fun r => r.hts_code_clean == (clean_hts hts_code).take L))

/-- The hierarchical matcher as the spec's section 4.2 words it: try lengths
10, 8, 6, 4 in that fixed descending order; at each length compare the
truncated query for equality against the rows' normalized codes; return the
first row found at the longest length yielding a match, else not-found.
Written from the spec to compare against `get_hts_data_from_file`. -/
def hierarchical_match (code : String) (table : List Row) : Option Row :=
  match table.find? (fun r => r.hts_code_clean == code.take 10) with
  | some r => some r
  | none =>
    match table.find? (fun r => r.hts_code_clean == code.take 8) with
    | some r => some r
    | none =>
      match table.find? (fun r => r.hts_code_clean == code.take 6) with
      | some r => some r
      | none => table.find? (fun r => r.hts_code_clean == code.take 4)

/-- Example Section 301 table used in concrete instantiations. -/
def s301_ex : List Row := [⟨"73029000", some (15/2)⟩]

/-- Example Section 232 table with a single 4-digit heading row. -/
def s232_ex : List Row := [⟨"7302", some 25⟩]

/-- Example data bundle: empty 2024 table, metal rows in the 2025 tables. -/
def all_data_ex : AllData :=
  { s301 := s301_ex, s232_2024 := [], s232_pre_may_25 := s232_ex, s232_post_may_25 := s232_ex }

/-- Example general table with both a 4-digit and a 10-digit row matching
truncations of the same query. -/
def general_ex : List Row := [⟨"1234", some 5⟩, ⟨"1234567890", some 25⟩]

/-- Example Section 232 table whose most specific row has an unparseable duty
and whose 8-digit row parses. -/
def s232_parse_ex : List Row := [⟨"1234567890", none⟩, ⟨"12345678", some 50⟩]

/-- Helper: the branch of `compute_scenario` taken when the Section 232 rate is
strictly positive, as an explicit record. -/
theorem compute_scenario_pos (hts_code country : String) (general_rate : ℚ)
    (s301_df scenario_df : List Row) (scenario_key : String)
    (h : 0 < get_section_232_rate hts_code scenario_df) :
    compute_scenario hts_code country general_rate s301_df scenario_df scenario_key =
      { general := general_rate,
        s301 := get_section_301_rate hts_code country s301_df,
        ieepa := get_ieepa_rate country scenario_key,
        s232 := get_section_232_rate hts_code scenario_df,
        reciprocal := get_reciprocal_rate country scenario_key,
        is_composite := true,
        metal_component := some (general_rate + get_section_301_rate hts_code country s301_df +
          get_ieepa_rate country scenario_key + get_section_232_rate hts_code scenario_df),
        other_component := some (general_rate + get_section_301_rate hts_code country s301_df +
          get_ieepa_rate country scenario_key + get_reciprocal_rate country scenario_key),
        total_rate := none } := by
  simp only [compute_scenario]
  rw [if_pos h]

/-- Helper: the branch of `compute_scenario` taken when the Section 232 rate is
not strictly positive, as an explicit record. -/
theorem compute_scenario_nonpos (hts_code country : String) (general_rate : ℚ)
    (s301_df scenario_df : List Row) (scenario_key : String)
    (h : ¬ 0 < get_section_232_rate hts_code scenario_df) :
    compute_scenario hts_code country general_rate s301_df scenario_df scenario_key =
      { general := general_rate,
        s301 := get_section_301_rate hts_code country s301_df,
        ieepa := get_ieepa_rate country scenario_key,
        s232 := get_section_232_rate hts_code scenario_df,
        reciprocal := get_reciprocal_rate country scenario_key,
        is_composite := false,
        metal_component := none,
        other_component := none,
        total_rate := some (general_rate + get_section_301_rate hts_code country s301_df +
          get_ieepa_rate country scenario_key + get_section_232_rate hts_code scenario_df +
          get_reciprocal_rate country scenario_key) } := by
  simp only [compute_scenario]
  rw [if_neg h]

/-- Helper: the `s232` component stored by `compute_scenario` is the resolved
Section 232 rate, in both branches. -/
theorem compute_scenario_s232 (hts_code country : String) (general_rate : ℚ)
    (s301_df scenario_df : List Row) (scenario_key : String) :
    (compute_scenario hts_code country general_rate s301_df scenario_df scenario_key).s232 =
      get_section_232_rate hts_code scenario_df := by
  simp only [compute_scenario]
  split <;> rfl

/-- Helper: the composite flag stored by `compute_scenario` is exactly the
strict positivity test of the resolved Section 232 rate. -/
theorem compute_scenario_is_composite (hts_code country : String) (general_rate : ℚ)
    (s301_df scenario_df : List Row) (scenario_key : String) :
    (compute_scenario hts_code country general_rate s301_df scenario_df scenario_key).is_composite =
      decide (0 < get_section_232_rate hts_code scenario_df) := by
  simp only [compute_scenario]
  split
  · next h => simp [h]
  · next h => simp [h]

/-- Helper: the claim C4/C5 branch facts about a single scenario result. -/
theorem compute_scenario_branches (hts_code country : String) (general_rate : ℚ)
    (s301_df scenario_df : List Row) (scenario_key : String) (r : ScenarioResult)
    (hr : r = compute_scenario hts_code country general_rate s301_df scenario_df scenario_key) :
    (0 < r.s232 → r.is_composite = true ∧
        r.metal_component = some (r.general + r.s301 + r.ieepa + r.s232) ∧
        r.other_component = some (r.general + r.s301 + r.ieepa + r.reciprocal)) ∧
    (r.is_composite = true → 0 < r.s232) ∧
    (r.s232 = 0 → r.is_composite = false ∧
        r.total_rate = some (r.general + r.s301 + r.ieepa + r.reciprocal)) := by
  by_cases hpos : 0 < get_section_232_rate hts_code scenario_df
  · rw [compute_scenario_pos hts_code country general_rate s301_df scenario_df scenario_key hpos]
      at hr
    subst hr
    refine ⟨fun _ => ⟨rfl, rfl, rfl⟩, fun _ => hpos, fun h0 => ?_⟩
    have h0' : get_section_232_rate hts_code scenario_df = 0 := h0
    rw [h0'] at hpos
    exact absurd hpos (lt_irrefl 0)
  · rw [compute_scenario_nonpos hts_code country general_rate s301_df scenario_df scenario_key
      hpos] at hr
    subst hr
    refine ⟨fun hp => absurd hp hpos, fun hc => by simp at hc, fun h0 => ⟨rfl, ?_⟩⟩
    show some (_ + _ + _ + get_section_232_rate hts_code scenario_df + _) = _
    have h0' : get_section_232_rate hts_code scenario_df = 0 := h0
    rw [h0', add_zero]

end TariffEngine

namespace TariffEngine

/-- C9: the code normalizer keeps exactly the decimal-digit characters of the
input, in original order, and is idempotent. -/
theorem clean_hts_digits_and_idempotent (x : String) :
    (clean_hts x).data = x.data.filter Char.isDigit ∧
    clean_hts (clean_hts x) = clean_hts x := by
  constructor
  · rfl
  · show String.mk ((x.data.filter Char.isDigit).filter Char.isDigit) = _
    rw [List.filter_filter]
    simp [clean_hts]

/-- C8: the two table-free resolvers return exactly the fixed rule values:
IEEPA is 0.20 for China (case-insensitive) in the pre-May-2025 and
post-May-2025 scenarios and 0 otherwise (including the 2024 scenario);
Reciprocal is 0 for 2024, 1.25 for China pre-May-2025, 0.10 for China
post-May-2025, and 0 for every other pair. -/
theorem fixed_rate_resolvers_exact (country scenario_name : String) :
    get_ieepa_rate country scenario_name =
      (if str_lower country = "china" ∧
          (scenario_name = "s232_pre_may_25" ∨ scenario_name = "s232_post_may_25")
        then (1 : ℚ)/5 else 0) ∧
    get_reciprocal_rate country scenario_name =
      (if scenario_name = "s232_2024" then (0 : ℚ)
        else if scenario_name = "s232_pre_may_25" ∧ str_lower country = "china" then 5/4
        else if scenario_name = "s232_post_may_25" ∧ str_lower country = "china" then 1/10
        else 0) := by
  constructor
  · simp only [get_ieepa_rate, Bool.and_eq_true, Bool.or_eq_true, beq_iff_eq]
    split <;> norm_num
  · simp only [get_reciprocal_rate, Bool.and_eq_true, beq_iff_eq]
    split
    · norm_num
    · split
      · norm_num
      · split
        · norm_num
        · norm_num

end TariffEngine

namespace TariffEngine

/-- C4: in the composer's output, every scenario whose Section 232 rate is
strictly positive is marked composite, with metal component
general + s301 + ieepa + s232 (no reciprocal) and other component
general + s301 + ieepa + reciprocal (no Section 232); and a scenario is marked
composite only when its Section 232 rate is strictly positive. -/
theorem composer_composite_scenarios (hts_code country : String) (all_data : AllData)
    (general_rate : ℚ) (pr : String × ScenarioResult)
    (hmem : pr ∈ calculate_all_tariffs hts_code country all_data general_rate) :
    (0 < pr.2.s232 → pr.2.is_composite = true ∧
        pr.2.metal_component = some (pr.2.general + pr.2.s301 + pr.2.ieepa + pr.2.s232) ∧
        pr.2.other_component = some (pr.2.general + pr.2.s301 + pr.2.ieepa + pr.2.reciprocal)) ∧
    (pr.2.is_composite = true → 0 < pr.2.s232) := by
  simp only [calculate_all_tariffs, List.mem_cons, List.not_mem_nil, or_false] at hmem
  rcases hmem with h | h | h <;> subst h <;>
    exact ⟨(compute_scenario_branches _ _ _ _ _ _ _ rfl).1,
      (compute_scenario_branches _ _ _ _ _ _ _ rfl).2.1⟩

/-- Witness for C4 at the Pre-May 2025 scenario of a concrete calculation. -/
theorem composer_composite_scenarios_witness :
    ("Pre-May 2025", compute_scenario "7302.90.00" "China" 0 all_data_ex.s301
        all_data_ex.s232_pre_may_25 "s232_pre_may_25").2.is_composite = true :=
  ((composer_composite_scenarios "7302.90.00" "China" all_data_ex 0
      ("Pre-May 2025", compute_scenario "7302.90.00" "China" 0 all_data_ex.s301
        all_data_ex.s232_pre_may_25 "s232_pre_may_25")
      (List.mem_cons_of_mem _ (List.mem_cons_self _ _))).1
    (by
      show 0 < (compute_scenario "7302.90.00" "China" 0 all_data_ex.s301
          all_data_ex.s232_pre_may_25 "s232_pre_may_25").s232
      rw [compute_scenario_s232]
      have h : get_section_232_rate "7302.90.00" all_data_ex.s232_pre_may_25 = 25/100 := rfl
      rw [h]
      norm_num)).1

/-- C5: in the composer's output, every scenario whose Section 232 rate is zero
is marked non-composite and its single total rate is
general + s301 + ieepa + reciprocal. -/
theorem composer_noncomposite_scenarios (hts_code country : String) (all_data : AllData)
    (general_rate : ℚ) (pr : String × ScenarioResult)
    (hmem : pr ∈ calculate_all_tariffs hts_code country all_data general_rate) :
    pr.2.s232 = 0 → pr.2.is_composite = false ∧
      pr.2.total_rate = some (pr.2.general + pr.2.s301 + pr.2.ieepa + pr.2.reciprocal) := by
  simp only [calculate_all_tariffs, List.mem_cons, List.not_mem_nil, or_false] at hmem
  rcases hmem with h | h | h <;> subst h <;>
    exact (compute_scenario_branches _ _ _ _ _ _ _ rfl).2.2

/-- Witness for C5 at the 2024 scenario of a concrete calculation. -/
theorem composer_noncomposite_scenarios_witness :
    ("2024 Tariff", compute_scenario "7302.90.00" "China" 0 all_data_ex.s301
        all_data_ex.s232_2024 "s232_2024").2.is_composite = false :=
  (composer_noncomposite_scenarios "7302.90.00" "China" all_data_ex 0
      ("2024 Tariff", compute_scenario "7302.90.00" "China" 0 all_data_ex.s301
        all_data_ex.s232_2024 "s232_2024")
      (List.mem_cons_self _ _)
      (by
        show (compute_scenario "7302.90.00" "China" 0 all_data_ex.s301
            all_data_ex.s232_2024 "s232_2024").s232 = 0
        rw [compute_scenario_s232]
        rfl)).1

end TariffEngine

namespace TariffEngine

/-- C10: the Section 232 rate is independent of the country: mapping each
scenario of the composer's output to its display name, its Section 232
component, and its composite flag gives the same list for any two countries,
so the composite classification is determined by the code and the scenario's
table alone. -/
theorem composer_country_independence (hts_code country1 country2 : String)
    (all_data : AllData) (general_rate : ℚ) :
    (calculate_all_tariffs hts_code country1 all_data general_rate).map
        (fun pr => (pr.1, pr.2.s232, pr.2.is_composite)) =
      (calculate_all_tariffs hts_code country2 all_data general_rate).map
        (fun pr => (pr.1, pr.2.s232, pr.2.is_composite)) := by
  simp only [calculate_all_tariffs, List.map_cons, List.map_nil,
    compute_scenario_s232, compute_scenario_is_composite]

end TariffEngine

namespace TariffEngine

/-- Helper: `find?` returns the first element of the list satisfying the
predicate. -/
theorem find?_eq_first {α : Type} (p : α → Bool) (pre post : List α) (r : α)
    (hpre : ∀ x ∈ pre, ¬ p x) (hr : p r) :
    (pre ++ r :: post).find? p = some r := by
  induction pre with
  | nil =>
    simpa using List.find?_cons_of_pos post hr
  | cons a as ih =>
    rw [List.cons_append, List.find?_cons_of_neg _ (hpre a (List.mem_cons_self a as))]
    exact ih fun x hx => hpre x (List.mem_cons_of_mem a hx)

/-- C6: the Section 301 resolver returns 0 whenever the country does not
lower-case to "china"; for China it truncates the normalized query to at most
8 digits and takes the first row of the table whose normalized code starts
with that prefix, returning that row's parsed duty divided by 100; it returns
0, never an error, when no row matches or the duty field fails to parse. -/
theorem sec301_resolver_behavior (hts_code country : String) (s301_df : List Row) :
    (str_lower country ≠ "china" → get_section_301_rate hts_code country s301_df = 0) ∧
    (str_lower country = "china" →
      ((∀ r ∈ s301_df, ¬ str_startswith r.hts_code_clean ((clean_hts hts_code).take 8)) →
        get_section_301_rate hts_code country s301_df = 0) ∧
      (∀ (pre post : List Row) (r : Row), s301_df = pre ++ r :: post →
        (∀ x ∈ pre, ¬ str_startswith x.hts_code_clean ((clean_hts hts_code).take 8)) →
        str_startswith r.hts_code_clean ((clean_hts hts_code).take 8) →
        (∀ d, r.duty = some d → get_section_301_rate hts_code country s301_df = d / 100) ∧
        (r.duty = none → get_section_301_rate hts_code country s301_df = 0))) := by
  constructor
  · intro h
    simp only [get_section_301_rate]
    rw [if_pos h]
  · intro h
    constructor
    · intro hno
      simp only [get_section_301_rate]
      rw [if_neg (not_not.mpr h), List.find?_eq_none.mpr fun x hx => by simpa using hno x hx]
    · intro pre post r hdf hpre hr
      subst hdf
      constructor
      · intro d hd
        simp only [get_section_301_rate]
        rw [if_neg (not_not.mpr h), find?_eq_first _ pre post r hpre hr]
        simp [hd]
      · intro hd
        simp only [get_section_301_rate]
        rw [if_neg (not_not.mpr h), find?_eq_first _ pre post r hpre hr]
        simp [hd]

/-- Witness for C6: the China branch applied to a one-row table whose row is
the first (and only) prefix match. -/
theorem sec301_resolver_behavior_witness :
    get_section_301_rate "8471.30.01" "CHINA" [⟨"84713001", some 25⟩] = 25 / 100 :=
  (((sec301_resolver_behavior "8471.30.01" "CHINA" [⟨"84713001", some 25⟩]).2 (by decide)).2
    [] [] ⟨"84713001", some 25⟩ rfl (by simp) (by decide)).1 25 rfl

end TariffEngine

namespace TariffEngine

/-- C7: in the Section 232 resolver, a first match whose duty field fails to
parse behaves exactly like no match at that cascade length: the cascade over
the remaining shorter lengths decides the result, no error is raised, and if
no length yields a parseable match the resolver returns 0. -/
theorem sec232_parse_failure_continues (hts_code : String) (scenario_df : List Row) :
    (∀ (L : Nat) (Ls : List Nat) (r : Row),
      scenario_df.find? (fun x => x.hts_code_clean == (clean_hts hts_code).take L) = some r →
      r.duty = none →
      (((L :: Ls).findSome? (s232_try_length (clean_hts hts_code) scenario_df)).getD 0 : ℚ) =
        ((Ls.findSome? (s232_try_length (clean_hts hts_code) scenario_df)).getD 0 : ℚ)) ∧
    ((∀ L ∈ ([10, 8, 6, 4] : List Nat),
        s232_try_length (clean_hts hts_code) scenario_df L = none) →
      get_section_232_rate hts_code scenario_df = 0) := by
  constructor
  · intro L Ls r hfind hd
    have hnone : s232_try_length (clean_hts hts_code) scenario_df L = none := by
      simp [s232_try_length, hfind, hd]
    simp [List.findSome?_cons, hnone]
  · intro hall
    simp [get_section_232_rate, List.findSome?_cons,
      hall 10 (by simp), hall 8 (by simp), hall 6 (by simp), hall 4 (by simp)]

/-- Witness for C7: a table whose 10-digit match has an unparseable duty; the
cascade result over 10, 8, 6, 4 equals the cascade result over 8, 6, 4. -/
theorem sec232_parse_failure_continues_witness :
    ((([10, 8, 6, 4] : List Nat).findSome?
        (s232_try_length (clean_hts "1234567890") s232_parse_ex)).getD 0 : ℚ) =
      ((([8, 6, 4] : List Nat).findSome?
        (s232_try_length (clean_hts "1234567890") s232_parse_ex)).getD 0 : ℚ) :=
  (sec232_parse_failure_continues "1234567890" s232_parse_ex).1 10 [8, 6, 4]
    ⟨"1234567890", none⟩ (by decide) rfl

end TariffEngine

namespace TariffEngine

/-- C3: the hierarchical matcher tries prefix lengths 10, 8, 6, 4 in that
fixed descending order, truncating the query (whole query when shorter, no
padding) and comparing for equality against the rows' normalized codes; it
agrees with the spec's cascade, reports not-found (`none` for the general
lookup, rate 0 for Section 232) when no length matches, and returns the first
row, in table order, at the longest length that yields any match — in
particular a 10-digit match wins over a 4-digit match. -/
theorem hierarchical_matcher_cascade (hts_code : String) (general_df : List Row) :
    (get_hts_data_from_file hts_code general_df =
      hierarchical_match (clean_hts hts_code) general_df) ∧
    ((∀ r ∈ general_df, ∀ L ∈ ([10, 8, 6, 4] : List Nat),
        r.hts_code_clean ≠ (clean_hts hts_code).take L) →
      get_hts_data_from_file hts_code general_df = none ∧
        get_section_232_rate hts_code general_df = 0) ∧
    (∀ L ∈ ([10, 8, 6, 4] : List Nat),
      (∃ r ∈ general_df, r.hts_code_clean = (clean_hts hts_code).take L) →
      (∀ L' ∈ ([10, 8, 6, 4] : List Nat), L < L' →
        ∀ r ∈ general_df, r.hts_code_clean ≠ (clean_hts hts_code).take L') →
      get_hts_data_from_file hts_code general_df =
        general_df.find? (fun r => r.hts_code_clean == (clean_hts hts_code).take L)) ∧
    ((∃ r ∈ general_df, r.hts_code_clean = (clean_hts hts_code).take 10) →
      get_hts_data_from_file hts_code general_df =
        general_df.find? (fun r => r.hts_code_clean == (clean_hts hts_code).take 10)) := by
  have key : ∀ (L' : Nat),
      (∀ x ∈ general_df, x.hts_code_clean ≠ (clean_hts hts_code).take L') →
      general_df.find? (fun r => r.hts_code_clean == (clean_hts hts_code).take L') = none :=
    fun L' hno => List.find?_eq_none.mpr fun x hx => by simpa using hno x hx
  have ksome : ∀ (L' : Nat),
      (∃ r ∈ general_df, r.hts_code_clean = (clean_hts hts_code).take L') →
      ∃ a, general_df.find? (fun r => r.hts_code_clean == (clean_hts hts_code).take L') =
        some a := by
    intro L' hex
    obtain ⟨r, hr, hreq⟩ := hex
    exact Option.isSome_iff_exists.mp (List.find?_isSome.mpr ⟨r, hr, by simp [hreq]⟩)
  refine ⟨?_, ?_, ?_, ?_⟩
  · simp only [get_hts_data_from_file, hierarchical_match, List.findSome?_cons,
      List.findSome?_nil]
    cases h10 : general_df.find? (fun r => r.hts_code_clean == (clean_hts hts_code).take 10) <;>
      cases h8 : general_df.find? (fun r => r.hts_code_clean == (clean_hts hts_code).take 8) <;>
        cases h6 : general_df.find? (fun r => r.hts_code_clean == (clean_hts hts_code).take 6) <;>
          cases h4 : general_df.find? (fun r => r.hts_code_clean == (clean_hts hts_code).take 4) <;>
            simp
  · intro hno
    have hfind : ∀ L ∈ ([10, 8, 6, 4] : List Nat),
        general_df.find? (fun r => r.hts_code_clean == (clean_hts hts_code).take L) = none :=
      fun L hL => key L fun x hx => hno x hx L hL
    constructor
    · simp [get_hts_data_from_file, List.findSome?_cons,
        hfind 10 (by simp), hfind 8 (by simp), hfind 6 (by simp), hfind 4 (by simp)]
    · simp [get_section_232_rate, s232_try_length, List.findSome?_cons,
        hfind 10 (by simp), hfind 8 (by simp), hfind 6 (by simp), hfind 4 (by simp)]
  · intro L hL hex hlonger
    simp only [List.mem_cons, List.not_mem_nil, or_false] at hL
    obtain ⟨a, ha⟩ := ksome L hex
    rcases hL with h | h | h | h <;> subst h
    · simp [get_hts_data_from_file, List.findSome?_cons, ha]
    · have n10 := key 10 (hlonger 10 (by simp) (by norm_num))
      simp [get_hts_data_from_file, List.findSome?_cons, n10, ha]
    · have n10 := key 10 (hlonger 10 (by simp) (by norm_num))
      have n8 := key 8 (hlonger 8 (by simp) (by norm_num))
      simp [get_hts_data_from_file, List.findSome?_cons, n10, n8, ha]
    · have n10 := key 10 (hlonger 10 (by simp) (by norm_num))
      have n8 := key 8 (hlonger 8 (by simp) (by norm_num))
      have n6 := key 6 (hlonger 6 (by simp) (by norm_num))
      simp [get_hts_data_from_file, List.findSome?_cons, n10, n8, n6, ha]
  · intro hex
    obtain ⟨a, ha⟩ := ksome 10 hex
    simp [get_hts_data_from_file, List.findSome?_cons, ha]

/-- Witness for C3: a query matching both a 10-digit row and a 4-digit row
resolves to the 10-digit match. -/
theorem hierarchical_matcher_cascade_witness :
    get_hts_data_from_file "1234.56.78.90" general_ex =
      general_ex.find? (fun r => r.hts_code_clean == (clean_hts "1234.56.78.90").take 10) :=
  (hierarchical_matcher_cascade "1234.56.78.90" general_ex).2.2.2
    ⟨⟨"1234567890", some 25⟩, by decide, by decide⟩

end TariffEngine

namespace TariffEngine

/-- Counterexample to C1: an input with no digit characters normalizes to the
empty string, yet neither downstream match necessarily fails.  For Section 301
the empty 8-digit prefix is a prefix of every row's code, so the first row of
the table matches and its 25% duty is returned; for Section 232 a row whose
own normalized code is empty matches the empty truncated query and its 50%
duty is returned.  Both values are nonzero, refuting the claim that both
resolvers return 0. -/
theorem empty_code_match_counterexample :
    clean_hts "no-digits!" = "" ∧
    get_section_301_rate "no-digits!" "China" [⟨"12345678", some 25⟩] = 25 / 100 ∧
    get_section_232_rate "no-digits!" [⟨"", some 50⟩] = 50 / 100 ∧
    (25 : ℚ) / 100 ≠ 0 ∧ (50 : ℚ) / 100 ≠ 0 :=
  ⟨by decide, rfl, rfl, by norm_num, by norm_num⟩

/-- C1 amended: for an input with no digit characters (empty normalized code),
the Section 232 resolver returns 0 provided no row of the table has an empty
normalized code; the Section 301 resolver returns 0 when the country is not
China, while for China the empty prefix matches every row, so the result is
the first row's parsed duty divided by 100 (0 for an empty table or an
unparseable duty). -/
theorem empty_code_amended (hts_code country : String) (s301_df scenario_df : List Row)
    (h : clean_hts hts_code = "") :
    ((∀ r ∈ scenario_df, r.hts_code_clean ≠ "") →
      get_section_232_rate hts_code scenario_df = 0) ∧
    (str_lower country ≠ "china" → get_section_301_rate hts_code country s301_df = 0) ∧
    (str_lower country = "china" →
      get_section_301_rate hts_code country s301_df =
        (match s301_df.head? with
          | some r => (match r.duty with | some d => d / 100 | none => 0)
          | none => 0)) := by
  refine ⟨?_, ?_, ?_⟩
  · intro hne
    have hempty : ∀ (L : Nat), ("" : String).take L = "" →
        scenario_df.find? (fun r => r.hts_code_clean == (clean_hts hts_code).take L) = none := by
      intro L hL
      rw [List.find?_eq_none]
      intro x hx
      rw [h, hL]
      simpa using hne x hx
    simp [get_section_232_rate, s232_try_length, List.findSome?_cons,
      hempty 10 (by decide), hempty 8 (by decide), hempty 6 (by decide),
      hempty 4 (by decide)]
  · intro hc
    simp only [get_section_301_rate]
    rw [if_pos hc]
  · intro hc
    have hdata : ("" : String).data = [] := rfl
    have hpre : (clean_hts hts_code).take 8 = "" := by
      rw [h]
      decide
    simp only [get_section_301_rate, hpre]
    rw [if_neg (not_not.mpr hc)]
    cases s301_df with
    | nil => rfl
    | cons a l => simp [str_startswith, hdata]

/-- Witness for C1 (amended): a digitless code against tables whose rows all
have nonempty normalized codes, and a non-China country. -/
theorem empty_code_amended_witness :
    get_section_232_rate "xyz" s232_ex = 0 ∧
    get_section_301_rate "xyz" "Germany" s301_ex = 0 :=
  ⟨(empty_code_amended "xyz" "Germany" s301_ex s232_ex (by decide)).1 (by decide),
    (empty_code_amended "xyz" "Germany" s301_ex s232_ex (by decide)).2.1 (by decide)⟩

end TariffEngine

namespace TariffEngine

/-- Counterexample to C2: nothing in the resolvers clamps negative duty
fields; a Section 301 table row with duty -25 makes the resolver return
-25/100 < 0 for a matching Chinese query. -/
theorem sec301_negative_duty_counterexample :
    get_section_301_rate "12345678" "China" [⟨"12345678", some (-25)⟩] < 0 := by
  have h : get_section_301_rate "12345678" "China" [⟨"12345678", some (-25)⟩] = (-25) / 100 :=
    rfl
  rw [h]
  norm_num

/-- C2 amended: each rate resolver returns a value that is at least 0 provided
every parseable duty field of the consulted table is at least 0; the IEEPA
and Reciprocal resolvers are non-negative unconditionally. -/
theorem resolvers_nonneg_amended (hts_code country scenario_name : String)
    (s301_df scenario_df : List Row)
    (h301 : ∀ r ∈ s301_df, 0 ≤ r.duty.getD 0)
    (h232 : ∀ r ∈ scenario_df, 0 ≤ r.duty.getD 0) :
    0 ≤ get_section_301_rate hts_code country s301_df ∧
    0 ≤ get_section_232_rate hts_code scenario_df ∧
    0 ≤ get_ieepa_rate country scenario_name ∧
    0 ≤ get_reciprocal_rate country scenario_name := by
  refine ⟨?_, ?_, ?_, ?_⟩
  · simp only [get_section_301_rate]
    split
    · exact le_refl 0
    · cases hfind : s301_df.find?
          (fun r => str_startswith r.hts_code_clean ((clean_hts hts_code).take 8)) with
      | none => simp [hfind]
      | some r =>
        have hr : r ∈ s301_df := List.mem_of_find?_eq_some hfind
        have hnn := h301 r hr
        cases hd : r.duty with
        | none => simp [hfind, hd]
        | some d =>
          rw [hd] at hnn
          simp only [Option.getD_some] at hnn
          simp only [hfind, hd]
          exact div_nonneg hnn (by norm_num)
  · rw [get_section_232_rate]
    cases hfs : ([10, 8, 6, 4] : List Nat).findSome?
        (s232_try_length (clean_hts hts_code) scenario_df) with
    | none => simp
    | some q =>
      obtain ⟨L, hL, hq⟩ := List.exists_of_findSome?_eq_some hfs
      cases hfind : scenario_df.find?
          (fun r => r.hts_code_clean == (clean_hts hts_code).take L) with
      | none => simp [s232_try_length, hfind] at hq
      | some r =>
        cases hd : r.duty with
        | none => simp [s232_try_length, hfind, hd] at hq
        | some d =>
          simp only [s232_try_length, hfind, hd, Option.some.injEq] at hq
          have hr : r ∈ scenario_df := List.mem_of_find?_eq_some hfind
          have hnn := h232 r hr
          rw [hd] at hnn
          simp only [Option.getD_some] at hnn
          simp only [Option.getD_some]
          rw [← hq]
          exact div_nonneg hnn (by norm_num)
  · simp only [get_ieepa_rate]
    split
    · norm_num
    · exact le_refl 0
  · simp only [get_reciprocal_rate]
    split
    · exact le_refl 0
    · split
      · norm_num
      · split
        · norm_num
        · exact le_refl 0

/-- Witness for C2 (amended) on concrete tables with non-negative duties. -/
theorem resolvers_nonneg_amended_witness :
    0 ≤ get_section_301_rate "7302.90.00" "China" s301_ex ∧
    0 ≤ get_section_232_rate "7302.90.00" s232_ex ∧
    0 ≤ get_ieepa_rate "China" "s232_pre_may_25" ∧
    0 ≤ get_reciprocal_rate "China" "s232_pre_may_25" :=
  resolvers_nonneg_amended "7302.90.00" "China" "s232_pre_may_25" s301_ex s232_ex
    (by
      intro r hr
      simp only [s301_ex, List.mem_singleton] at hr
      subst hr
      simp only [Option.getD_some]
      norm_num)
    (by
      intro r hr
      simp only [s232_ex, List.mem_singleton] at hr
      subst hr
      simp only [Option.getD_some]
      norm_num)

end TariffEngine
